import Mathlib

/-!
Shallow embedding of the temp-email Cloudflare Worker (the mail backend of
the repository). The worker exposes: `generateEmailAddress` (address
generation), `handleNewEmail` (ingest), `getEmails` (list), `clearEmails`
(clear one mailbox), `clearAllEmails` (retention sweep), all over a D1
(SQLite-like) table `emails`.

Modelling conventions:
- JSON fields that may be absent or `null` are `Option String`; JS truthiness
  (`!x`) is `truthy`, JS `x || y` on such values is `jsOr`.
- The D1 binding `env.DB` is `Option D1Database`: `none` means the binding is
  not configured. A `D1Database` is the list of rows of the `emails` table
  plus a `healthy` flag modelling the `success` bit that D1 reports on
  `run`/`all` (when `false`, the worker's `if (!result.success) throw ...`
  paths fire).
- Timestamps (`Date.now()`) are passed in explicitly as `now : Int`.
- Randomness (`Math.random`) is passed in as a stream of indices
  `r : Nat → Fin 36` (`Math.floor(Math.random() * chars.length)` always lands
  in `[0, 35]`).
- A thrown JS exception is `Except.error` carrying the error message.
-/

/-- JS truthiness of a possibly-absent string field: `undefined`/`null` and
`""` are falsy, every other string is truthy. -/
def truthy : Option String → Bool
  | none => false
  | some s => s != ""

/-- JS `a || b` where `a` is a possibly-absent string and `b` a string. -/
def jsOr (a : Option String) (b : String) : String :=
  match a with
  | none => b
  | some s => if s = "" then b else s

/-- JS `toLowerCase()`, mapping each character to its lower-case form. -/
def jsToLower (s : String) : String := String.mk (s.data.map Char.toLower)

/-- JS `trim()`: strips leading and trailing whitespace. -/
def jsTrim (s : String) : String :=
  String.mk (((s.data.dropWhile Char.isWhitespace).reverse.dropWhile
    Char.isWhitespace).reverse)

/-- The address normalization used at the ingest, list and clear call sites:
`address.toLowerCase().trim()`. -/
def normalizeAddr (s : String) : String := jsTrim (jsToLower s)

/-- A row of the D1 `emails` table, with the columns read by `getEmails`
(`id, email_address, sender, subject, content, text_content, html_content,
received_at`) plus `raw_email` targeted by the (unreachable) INSERT in
`saveEmail`. Nullable columns are `Option String`. -/
structure EmailRow where
  id : Nat
  email_address : String
  sender : String
  subject : Option String
  content : Option String
  text_content : Option String
  html_content : Option String
  received_at : Int
  raw_email : Option String
deriving DecidableEq, Repr

/-- The D1 database binding: rows of the `emails` table, the next
auto-assigned row id, and a `healthy` flag modelling the `success` bit of
D1 query results. -/
structure D1Database where
  rows : List EmailRow
  nextId : Nat
  healthy : Bool
deriving DecidableEq, Repr

/-- The worker environment: the D1 binding `DB` (absent when not configured)
and the `EMAIL_DOMAIN` variable. -/
structure Env where
  DB : Option D1Database
  EMAIL_DOMAIN : Option String
deriving DecidableEq, Repr

/-- The JSON body posted to `/email`: `{from, to, subject, text?, content?,
html?}`. The JSON field `from` is called `fromAddr` here because `from` is a
Lean keyword. -/
structure InboundEmail where
  fromAddr : Option String
  toAddr : Option String
  subject : Option String
  text : Option String
  content : Option String
  html : Option String
deriving DecidableEq, Repr

/-- The distinguishable failure modes of the worker's JSON error responses:
`missingFields` is ingest's 400, `missingAddress` the list/clear 400,
`dbNotConfigured` the uniform 500 `D1数据库未配置` produced by the `!env.DB`
checks, and the remaining constructors the 500s produced when a reachable
store reports failure (carrying the thrown message). -/
inductive WorkerError where
  | missingFields
  | missingAddress
  | dbNotConfigured
  | saveFailed (detail : String)
  | queryFailed (detail : String)
  | deleteFailed (detail : String)
deriving DecidableEq, Repr

/-- The record `saveEmail` expects from `extractEmailData`. -/
structure EmailData where
  toAddr : String
  sender : String
  subject : String
  text : String
  html : String
  raw : String
deriving DecidableEq, Repr

/-- `extractEmailData` is called by `saveEmail` but is defined nowhere in the
repository (neither in the worker module nor anywhere else in the source), so
in JS evaluating the call throws `ReferenceError: extractEmailData is not
defined` before anything later in `saveEmail` runs. We embed the call site as
an unconditionally throwing step carrying that message. -/
def extractEmailData (_email : InboundEmail) : Except String EmailData :=
  .error "extractEmailData is not defined"

/-- `saveEmail(env, email)`: calls `extractEmailData` (which throws, see
above), then would check the D1 binding and run the INSERT. The INSERT writes
the sender into a `from_address` column while `getEmails` reads a `sender`
column; being unreachable, we record the value in the `sender` field. A
failed INSERT (`!result.success`) throws `数据库插入操作失败`. Returns the
updated database on success. -/
def saveEmail (env : Env) (email : InboundEmail) (now : Int) :
    Except String D1Database := do
  let emailData ← extractEmailData email
  match env.DB with
  | none => .error "D1数据库未配置"
  | some db =>
      if db.healthy then
        .ok { db with
              rows := db.rows ++
                [{ id := db.nextId
                   email_address := emailData.toAddr
                   sender := emailData.sender
                   subject := some emailData.subject
                   content := none
                   text_content := some emailData.text
                   html_content := some emailData.html
                   received_at := now
                   raw_email := some emailData.raw }]
              nextId := db.nextId + 1 }
      else .error "数据库插入操作失败"

/-- The `text` defaulting step of `handleNewEmail`:
`if (!email.text) { email.text = email.content || ''; }`. -/
def deriveText (email : InboundEmail) : InboundEmail :=
  if truthy email.text then email
  else { email with text := some (jsOr email.content "") }

/-- `handleNewEmail(request, env)` (ingest): validates that `from`, `to` and
`subject` are truthy (400 otherwise), defaults `text`, computes the
normalized recipient address (note: the source computes `emailAddress` on its
line 66 and never uses it), checks the D1 binding (500 `dbNotConfigured`),
then calls `saveEmail`, mapping a thrown error to the 500 `保存邮件失败`
response. Returns the response outcome together with the resulting
environment. -/
def handleNewEmail (env : Env) (email : InboundEmail) (now : Int) :
    Except WorkerError Unit × Env :=
  if !truthy email.fromAddr || !truthy email.toAddr || !truthy email.subject then
    (.error .missingFields, env)
  else
    let email := deriveText email
    let _emailAddress := normalizeAddr (jsOr email.toAddr "")
    match env.DB with
    | none => (.error .dbNotConfigured, env)
    | some _ =>
        match saveEmail env email now with
        | .error msg => (.error (.saveFailed msg), env)
        | .ok db2 => (.ok (), { env with DB := some db2 })

/-- Descending order on `received_at`, the `ORDER BY received_at DESC` of the
list query. -/
def recvGE (a b : EmailRow) : Prop := b.received_at ≤ a.received_at

instance : DecidableRel recvGE := fun _ _ => Int.decLe _ _

instance : IsTotal EmailRow recvGE :=
  ⟨fun a b => le_total b.received_at a.received_at⟩

instance : IsTrans EmailRow recvGE :=
  ⟨fun _ _ _ h1 h2 => le_trans h2 h1⟩

/-- The rows of the table whose `email_address` equals the (already
normalized) address — the `WHERE email_address = ?` clause. -/
def matchingRows (db : D1Database) (normalizedAddress : String) : List EmailRow :=
  db.rows.filter fun e => e.email_address == normalizedAddress

/-- The list query of `getEmails`:
`SELECT ... WHERE email_address = ? ORDER BY received_at DESC LIMIT 100`. -/
def queryEmails (db : D1Database) (normalizedAddress : String) : List EmailRow :=
  ((matchingRows db normalizedAddress).insertionSort recvGE).take 100

/-- One element of the JSON array returned by `getEmails`. The JSON key
`from` is called `sender` here (`from` is a Lean keyword); `to` is set to the
normalized query address, not read from the row. -/
structure EmailOut where
  id : String
  receivedAt : Int
  sender : String
  toAddr : String
  subject : Option String
  text : String
  html : String
  content : Option String
  preview : String
deriving DecidableEq, Repr

/-- The per-row formatting of `getEmails`' result.map: stringified id,
`text`/`html` defaulted to `""`, and
`preview: email.text ? email.text.slice(0, 100) : (email.subject || '无内容')`. -/
def formatEmail (normalizedAddress : String) (e : EmailRow) : EmailOut :=
  { id := toString e.id
    receivedAt := e.received_at
    sender := e.sender
    toAddr := normalizedAddress
    subject := e.subject
    text := jsOr e.text_content ""
    html := jsOr e.html_content ""
    content := e.content
    preview :=
      if truthy e.text_content then (jsOr e.text_content "").take 100
      else jsOr e.subject "无内容" }

/-- `getEmails(request, env)` (list): 400 when the `address` query parameter
is falsy; normalizes the address (`toLowerCase().trim()`); 500
`dbNotConfigured` when the D1 binding is absent; throws `数据库查询失败`
(surfaced as the 500 `无法获取邮件` response) when the query reports failure;
otherwise returns the formatted rows. Read-only: the environment is not
changed. -/
def getEmails (env : Env) (address : Option String) :
    Except WorkerError (List EmailOut) :=
  if !truthy address then .error .missingAddress
  else
    let normalizedAddress := normalizeAddr (jsOr address "")
    match env.DB with
    | none => .error .dbNotConfigured
    | some db =>
        if db.healthy then
          .ok ((queryEmails db normalizedAddress).map (formatEmail normalizedAddress))
        else .error (.queryFailed "数据库查询失败")

/-- `clearEmails(request, env)` (clear one mailbox): 400 when `address` is
falsy; 500 `dbNotConfigured` when the D1 binding is absent; otherwise
`DELETE FROM emails WHERE email_address = ?`, throwing `数据库删除操作失败`
when the store reports failure, and reporting `meta.changes` (the number of
deleted rows) on success. Returns the count and the resulting environment. -/
def clearEmails (env : Env) (address : Option String) :
    Except WorkerError Nat × Env :=
  if !truthy address then (.error .missingAddress, env)
  else
    let normalizedAddress := normalizeAddr (jsOr address "")
    match env.DB with
    | none => (.error .dbNotConfigured, env)
    | some db =>
        if db.healthy then
          let deletedCount := (matchingRows db normalizedAddress).length
          let remaining := db.rows.filter fun e => !(e.email_address == normalizedAddress)
          (.ok deletedCount, { env with DB := some { db with rows := remaining } })
        else (.error (.deleteFailed "数据库删除操作失败"), env)

/-- `clearAllEmails(request, env)` (retention sweep): 500 `dbNotConfigured`
when the D1 binding is absent; otherwise computes
`cutoffTime = now - 24*60*60*1000` and runs
`DELETE FROM emails WHERE received_at < ?`, throwing `数据库删除操作失败` when
the store reports failure and reporting the number of deleted rows on
success. -/
def clearAllEmails (env : Env) (now : Int) : Except WorkerError Nat × Env :=
  match env.DB with
  | none => (.error .dbNotConfigured, env)
  | some db =>
      let cutoffTime : Int := now - 24 * 60 * 60 * 1000
      if db.healthy then
        let deletedCount :=
          (db.rows.filter fun e => decide (e.received_at < cutoffTime)).length
        let remaining := db.rows.filter fun e => !decide (e.received_at < cutoffTime)
        (.ok deletedCount, { env with DB := some { db with rows := remaining } })
      else (.error (.deleteFailed "数据库删除操作失败"), env)

/-- The alphabet of `generateEmailAddress`:
`'abcdefghijklmnopqrstuvwxyz0123456789'` (36 characters). -/
def emailChars : List Char := "abcdefghijklmnopqrstuvwxyz0123456789".toList

/-- `generateEmailAddress(env)`: 8 characters drawn from `emailChars` at the
random indices `r 0, ..., r 7`, then `` `${username}@${domain}` `` with
`domain = env.EMAIL_DOMAIN || "777.xyz"`. No store access of any kind. -/
def generateEmailAddress (env : Env) (r : Nat → Fin 36) : String :=
  let username := String.mk ((List.range 8).map fun i => emailChars.getD (r i).val 'a')
  let domain := jsOr env.EMAIL_DOMAIN "777.xyz"
  username ++ "@" ++ domain

/-! ### Helper lemmas -/

/-- A present string field is truthy iff it is non-empty. -/
lemma truthy_some_iff (s : String) : truthy (some s) = true ↔ s ≠ "" := by
  simp [truthy]

/-- `jsOr` on a truthy string returns the string itself. -/
lemma jsOr_some_ne (s b : String) (h : s ≠ "") : jsOr (some s) b = s := by
  simp [jsOr, h]

/-- `saveEmail` always throws the `ReferenceError` of the missing
`extractEmailData`, whatever the environment, payload and time. -/
lemma saveEmail_eq_error (env : Env) (email : InboundEmail) (now : Int) :
    saveEmail env email now = .error "extractEmailData is not defined" := rfl

/-- Ingest never changes the environment (in particular it never inserts a
row), whatever the input. -/
lemma handleNewEmail_snd (env : Env) (email : InboundEmail) (now : Int) :
    (handleNewEmail env email now).2 = env := by
  unfold handleNewEmail
  split
  · rfl
  · simp only
    split
    · rfl
    · rfl

/-- Claim C2: for every inbound message that passes field validation while
the backing store is configured, ingest never succeeds: `saveEmail` calls
`extractEmailData`, which is defined nowhere in the source, so the call
throws before the INSERT is reached, the error propagates to the ingest
handler's catch branch, the caller receives the storage-failure response
`保存邮件失败: extractEmailData is not defined`, and no ingest ever inserts a
row (the environment is unchanged by every ingest). -/
theorem c2_ingest_never_succeeds (env : Env) (db : D1Database)
    (email : InboundEmail) (now : Int)
    (hdb : env.DB = some db)
    (hf : truthy email.fromAddr = true) (ht : truthy email.toAddr = true)
    (hs : truthy email.subject = true) :
    handleNewEmail env email now =
      (.error (.saveFailed "extractEmailData is not defined"), env)
    ∧ ∀ env2 email2 now2, (handleNewEmail env2 email2 now2).2 = env2 := by
  constructor
  · unfold handleNewEmail
    rw [if_neg (by simp [hf, ht, hs])]
    simp only [hdb]
    rfl
  · exact handleNewEmail_snd

/-- Witness for C2 at a concrete configured environment and valid payload. -/
theorem c2_ingest_never_succeeds_witness :
    handleNewEmail ⟨some ⟨[], 1, true⟩, some "777.xyz"⟩
        ⟨some "a@b.c", some "x@777.xyz", some "hi", none, none, none⟩ 0 =
      (.error (.saveFailed "extractEmailData is not defined"),
       ⟨some ⟨[], 1, true⟩, some "777.xyz"⟩) :=
  (c2_ingest_never_succeeds _ ⟨[], 1, true⟩ _ 0 rfl (by decide) (by decide)
    (by decide)).1

/-- Claim C3: an inbound message with `from`, `to` or `subject` absent makes
ingest fail with the 400 missing-fields response, without touching the store:
the environment is unchanged, so a subsequent list returns exactly what it
returned before. -/
theorem c3_validation_missing_field (env : Env) (email : InboundEmail)
    (now : Int)
    (h : email.fromAddr = none ∨ email.toAddr = none ∨ email.subject = none) :
    handleNewEmail env email now = (.error .missingFields, env)
    ∧ ∀ address, getEmails (handleNewEmail env email now).2 address =
        getEmails env address := by
  have hcond :
      (!truthy email.fromAddr || !truthy email.toAddr || !truthy email.subject)
        = true := by
    rcases h with h | h | h <;> simp [h, truthy]
  constructor
  · unfold handleNewEmail
    rw [if_pos hcond]
  · intro address
    unfold handleNewEmail
    rw [if_pos hcond]

/-- Witness for C3: a message missing `subject` is rejected with the
missing-fields error and leaves the environment untouched. -/
theorem c3_validation_missing_field_witness :
    handleNewEmail ⟨some ⟨[], 1, true⟩, none⟩
        ⟨some "a@b.c", some "x@y.z", none, some "t", none, none⟩ 5 =
      (.error .missingFields, ⟨some ⟨[], 1, true⟩, none⟩) :=
  (c3_validation_missing_field ⟨some ⟨[], 1, true⟩, none⟩
    ⟨some "a@b.c", some "x@y.z", none, some "t", none, none⟩ 5
    (Or.inr (Or.inr rfl))).1

/-- Claim C1 (counterexample evaluation): on the claim's own scenario —
ingest of a message with `to = "  User@Foo.com "` into a configured, empty,
healthy store — ingest does not succeed (it fails with the storage-failure
response caused by the undefined `extractEmailData`, and the source's
normalized `emailAddress` is computed but never used as a storage key), and
the subsequent list for `"user@foo.com"` returns the empty sequence instead
of the message. -/
theorem c1_roundTrip_code_eval :
    handleNewEmail ⟨some ⟨[], 1, true⟩, some "777.xyz"⟩
        ⟨some "alice@example.com", some "  User@Foo.com ", some "hi",
         some "body", none, none⟩ 1000 =
      (.error (.saveFailed "extractEmailData is not defined"),
       ⟨some ⟨[], 1, true⟩, some "777.xyz"⟩)
    ∧ getEmails ⟨some ⟨[], 1, true⟩, some "777.xyz"⟩ (some "user@foo.com") =
        .ok [] := by
  constructor
  · rfl
  · rfl

/-- Claim C8 (counterexample evaluation): the in-memory `text` defaulting of
`handleNewEmail` does follow the spec's derivation rule (no `text`, no
`content` gives `""`; `content = "hello"` gives `"hello"`), but nothing is
ever stored: on the claim's scenario the ingest fails with the
storage-failure response caused by the undefined `extractEmailData`, and the
store still lists no message for the recipient. -/
theorem c8_textBody_derivation_code_eval :
    (deriveText ⟨some "bob@x.com", some "dest@777.xyz", some "s",
        none, none, none⟩).text = some ""
    ∧ (deriveText ⟨some "bob@x.com", some "dest@777.xyz", some "s",
        none, some "hello", none⟩).text = some "hello"
    ∧ handleNewEmail ⟨some ⟨[], 1, true⟩, some "777.xyz"⟩
        ⟨some "bob@x.com", some "dest@777.xyz", some "s", none, none, none⟩ 7 =
      (.error (.saveFailed "extractEmailData is not defined"),
       ⟨some ⟨[], 1, true⟩, some "777.xyz"⟩)
    ∧ getEmails ⟨some ⟨[], 1, true⟩, some "777.xyz"⟩ (some "dest@777.xyz") =
        .ok [] := by
  refine ⟨rfl, rfl, rfl, rfl⟩

/-- Claim C7: when the D1 binding is absent, each of ingest (on a payload
that passes validation), list, clear and sweep fails with the same
`dbNotConfigured` error before any query is attempted, the environment is
unchanged, and that failure mode is distinct from every reachable-store
operation failure. -/
theorem c7_store_unavailable (env : Env) (email : InboundEmail)
    (now : Int) (address : Option String)
    (hdb : env.DB = none)
    (hf : truthy email.fromAddr = true) (ht : truthy email.toAddr = true)
    (hs : truthy email.subject = true) (ha : truthy address = true) :
    handleNewEmail env email now = (.error .dbNotConfigured, env)
    ∧ getEmails env address = .error .dbNotConfigured
    ∧ clearEmails env address = (.error .dbNotConfigured, env)
    ∧ clearAllEmails env now = (.error .dbNotConfigured, env)
    ∧ ∀ d, WorkerError.dbNotConfigured ≠ .saveFailed d
        ∧ WorkerError.dbNotConfigured ≠ .queryFailed d
        ∧ WorkerError.dbNotConfigured ≠ .deleteFailed d := by
  refine ⟨?_, ?_, ?_, ?_, ?_⟩
  · unfold handleNewEmail
    rw [if_neg (by simp [hf, ht, hs])]
    simp only [hdb]
  · unfold getEmails
    rw [if_neg (by simp [ha])]
    simp only [hdb]
  · unfold clearEmails
    rw [if_neg (by simp [ha])]
    simp only [hdb]
  · unfold clearAllEmails
    simp only [hdb]
  · intro d
    refine ⟨?_, ?_, ?_⟩ <;> intro h <;> cases h

/-- Witness for C7 at a concrete unconfigured environment. -/
theorem c7_store_unavailable_witness :
    handleNewEmail ⟨none, some "777.xyz"⟩
        ⟨some "a@b.c", some "x@777.xyz", some "hi", none, none, none⟩ 3 =
      (.error .dbNotConfigured, ⟨none, some "777.xyz"⟩)
    ∧ getEmails ⟨none, some "777.xyz"⟩ (some "x@777.xyz") =
        .error .dbNotConfigured
    ∧ clearEmails ⟨none, some "777.xyz"⟩ (some "x@777.xyz") =
        (.error .dbNotConfigured, ⟨none, some "777.xyz"⟩)
    ∧ clearAllEmails ⟨none, some "777.xyz"⟩ 3 =
        (.error .dbNotConfigured, ⟨none, some "777.xyz"⟩) := by
  have h := c7_store_unavailable ⟨none, some "777.xyz"⟩
    ⟨some "a@b.c", some "x@777.xyz", some "hi", none, none, none⟩ 3
    (some "x@777.xyz") rfl (by decide) (by decide) (by decide) (by decide)
  exact ⟨h.1, h.2.1, h.2.2.1, h.2.2.2.1⟩

/-- Every character of the generation alphabet, indexed anywhere in
`[0, 35]`, is a lowercase letter or a digit. -/
lemma emailChars_getD_range :
    ∀ j : Fin 36,
      ('a' ≤ emailChars.getD j.val 'a' ∧ emailChars.getD j.val 'a' ≤ 'z')
      ∨ ('0' ≤ emailChars.getD j.val 'a' ∧ emailChars.getD j.val 'a' ≤ '9') := by
  decide

/-- Claim C10: with a configured (truthy) domain, `generateEmailAddress`
returns `<local>@<domain>` where the local part has exactly 8 characters,
each from `[a-z0-9]`; the result never depends on the D1 binding (no store
lookup, no uniqueness check), and the function has no other output (no
persistence side effect). -/
theorem c10_generate_spec (env : Env) (d : String) (r : Nat → Fin 36)
    (hd : env.EMAIL_DOMAIN = some d) (hne : d ≠ "") :
    ∃ u : String,
      generateEmailAddress env r = u ++ "@" ++ d
      ∧ u.length = 8
      ∧ (∀ c ∈ u.toList, ('a' ≤ c ∧ c ≤ 'z') ∨ ('0' ≤ c ∧ c ≤ '9'))
      ∧ ∀ DB1 DB2 dom, generateEmailAddress ⟨DB1, dom⟩ r =
          generateEmailAddress ⟨DB2, dom⟩ r := by
  refine ⟨String.mk ((List.range 8).map fun i => emailChars.getD (r i).val 'a'),
    ?_, ?_, ?_, ?_⟩
  · unfold generateEmailAddress
    rw [hd, jsOr_some_ne _ _ hne]
  · simp [String.length]
  · intro c hc
    simp only [String.toList, String.data, List.mem_map, List.mem_range] at hc
    obtain ⟨i, _, hi⟩ := hc
    rw [← hi]
    exact emailChars_getD_range (r i)
  · intro DB1 DB2 dom
    rfl

/-- Witness for C10 with the domain `example.org` and the constant index
stream `0`. -/
theorem c10_generate_spec_witness :
    ∃ u : String,
      generateEmailAddress ⟨none, some "example.org"⟩ (fun _ => (0 : Fin 36)) =
        u ++ "@" ++ "example.org"
      ∧ u.length = 8
      ∧ (∀ c ∈ u.toList, ('a' ≤ c ∧ c ≤ 'z') ∨ ('0' ≤ c ∧ c ≤ '9'))
      ∧ ∀ DB1 DB2 dom, generateEmailAddress ⟨DB1, dom⟩ (fun _ => (0 : Fin 36)) =
          generateEmailAddress ⟨DB2, dom⟩ (fun _ => (0 : Fin 36)) :=
  c10_generate_spec ⟨none, some "example.org"⟩ "example.org"
    (fun _ => (0 : Fin 36)) rfl (by decide)

/-- Splitting a list by a Boolean predicate preserves the total length. -/
lemma length_filter_add_length_filter_not {α : Type} (p : α → Bool)
    (l : List α) :
    (l.filter p).length + (l.filter fun a => !p a).length = l.length := by
  induction l with
  | nil => rfl
  | cons a l ih =>
      cases hp : p a <;> simp [List.filter_cons, hp] <;> omega

/-- Claim C5: with a reachable store, the sweep deletes exactly the rows
with `received_at` strictly below `now - 86400000` (the 24-hour horizon,
`24*60*60*1000` in the source) and reports the number of rows removed, the
surviving rows being exactly those at or above the horizon. -/
theorem c5_sweep_spec (env : Env) (db : D1Database) (now : Int)
    (hdb : env.DB = some db) (hh : db.healthy = true) :
    ∃ n db2,
      clearAllEmails env now = (.ok n, { env with DB := some db2 })
      ∧ (∀ e, e ∈ db2.rows ↔ e ∈ db.rows ∧ ¬ e.received_at < now - 86400000)
      ∧ n + db2.rows.length = db.rows.length
      ∧ n = (db.rows.filter fun e =>
              decide (e.received_at < now - 86400000)).length
      ∧ db2.healthy = true := by
  have hcut : (24 * 60 * 60 * 1000 : Int) = 86400000 := by norm_num
  refine ⟨(db.rows.filter fun e =>
      decide (e.received_at < now - 86400000)).length,
    { db with rows := db.rows.filter fun e =>
        !decide (e.received_at < now - 86400000) }, ?_, ?_, ?_, rfl, hh⟩
  · unfold clearAllEmails
    simp only [hdb, hcut, hh, if_true]
  · intro e
    simp [List.mem_filter]
  · exact length_filter_add_length_filter_not _ _

/-- Witness for C5: at `now = 360000000`, a message aged 25 hours
(`received_at = 270000000`) is removed, a message aged 1 hour
(`received_at = 356400000`) survives, the reported count is 1, and the
subsequent list for the address returns only the surviving message. -/
theorem c5_sweep_spec_witness :
    (∃ n db2,
      clearAllEmails ⟨some ⟨[⟨1, "a@b.c", "s1", some "old", none, some "t1",
          none, 270000000, none⟩,
        ⟨2, "a@b.c", "s2", some "new", none, some "t2", none, 356400000,
          none⟩], 3, true⟩, none⟩ 360000000 = (.ok n, ⟨some db2, none⟩)
      ∧ (∀ e, e ∈ db2.rows ↔
          e ∈ [⟨1, "a@b.c", "s1", some "old", none, some "t1", none,
                 270000000, none⟩,
               (⟨2, "a@b.c", "s2", some "new", none, some "t2", none,
                 356400000, none⟩ : EmailRow)]
          ∧ ¬ e.received_at < 360000000 - 86400000)
      ∧ n + db2.rows.length = 2)
    ∧ clearAllEmails ⟨some ⟨[⟨1, "a@b.c", "s1", some "old", none, some "t1",
          none, 270000000, none⟩,
        ⟨2, "a@b.c", "s2", some "new", none, some "t2", none, 356400000,
          none⟩], 3, true⟩, none⟩ 360000000 =
        (.ok 1, ⟨some ⟨[⟨2, "a@b.c", "s2", some "new", none, some "t2", none,
          356400000, none⟩], 3, true⟩, none⟩)
    ∧ getEmails ⟨some ⟨[⟨2, "a@b.c", "s2", some "new", none, some "t2", none,
          356400000, none⟩], 3, true⟩, none⟩ (some "a@b.c") =
        .ok [formatEmail "a@b.c"
          ⟨2, "a@b.c", "s2", some "new", none, some "t2", none, 356400000,
            none⟩] := by
  refine ⟨?_, by rfl, by rfl⟩
  obtain ⟨n, db2, h1, h2, h3, _, _⟩ := c5_sweep_spec
    ⟨some ⟨[⟨1, "a@b.c", "s1", some "old", none, some "t1", none,
        270000000, none⟩,
      ⟨2, "a@b.c", "s2", some "new", none, some "t2", none, 356400000,
        none⟩], 3, true⟩, none⟩
    ⟨[⟨1, "a@b.c", "s1", some "old", none, some "t1", none, 270000000, none⟩,
      ⟨2, "a@b.c", "s2", some "new", none, some "t2", none, 356400000,
        none⟩], 3, true⟩ 360000000 rfl rfl
  exact ⟨n, db2, h1, h2, h3⟩

/-- Claim C6: with a reachable store and a truthy address, clear removes all
messages for the normalized address and reports the number of rows removed
(positive exactly when such messages existed); calling clear again right
away succeeds with a reported count of 0 and leaves the state unchanged. -/
theorem c6_clear_idempotent (env : Env) (db : D1Database)
    (address : Option String)
    (hdb : env.DB = some db) (hh : db.healthy = true)
    (ha : truthy address = true) :
    ∃ n db1,
      clearEmails env address = (.ok n, { env with DB := some db1 })
      ∧ (0 < n ↔ ∃ e ∈ db.rows,
          e.email_address = normalizeAddr (jsOr address ""))
      ∧ (∀ e, e ∈ db1.rows ↔ e ∈ db.rows
          ∧ e.email_address ≠ normalizeAddr (jsOr address ""))
      ∧ clearEmails { env with DB := some db1 } address =
          (.ok 0, { env with DB := some db1 }) := by
  refine ⟨(matchingRows db (normalizeAddr (jsOr address ""))).length,
    { db with rows := db.rows.filter fun e =>
        !(e.email_address == normalizeAddr (jsOr address "")) },
    ?_, ?_, ?_, ?_⟩
  · unfold clearEmails
    rw [if_neg (by simp [ha])]
    simp only [hdb, hh, if_true]
  · rw [matchingRows, ← List.countP_eq_length_filter, List.countP_pos_iff]
    simp
  · intro e
    simp [List.mem_filter]
  · have hempty : (db.rows.filter fun e =>
        !(e.email_address == normalizeAddr (jsOr address ""))).filter
          (fun e => e.email_address == normalizeAddr (jsOr address "")) = [] := by
      rw [List.filter_eq_nil_iff]
      intro a hmem
      have := (List.mem_filter.mp hmem).2
      simp at this ⊢
      exact this
    have hself : (db.rows.filter fun e =>
        !(e.email_address == normalizeAddr (jsOr address ""))).filter
          (fun e => !(e.email_address == normalizeAddr (jsOr address ""))) =
        db.rows.filter fun e =>
          !(e.email_address == normalizeAddr (jsOr address "")) := by
      rw [List.filter_eq_self]
      intro a hmem
      exact (List.mem_filter.mp hmem).2
    unfold clearEmails
    rw [if_neg (by simp [ha])]
    simp only [hh, if_true, matchingRows]
    rw [hempty, hself]
    rfl

/-- Witness for C6: clearing a mailbox holding two messages reports 2 and
removes them; clearing again immediately succeeds and reports 0. -/
theorem c6_clear_idempotent_witness :
    (∃ n db1,
      clearEmails ⟨some ⟨[⟨1, "x@y.z", "s1", some "a", none, none, none, 10,
            none⟩,
          ⟨2, "x@y.z", "s2", some "b", none, none, none, 20, none⟩,
          ⟨3, "other@y.z", "s3", some "c", none, none, none, 30, none⟩], 4,
          true⟩, none⟩ (some "x@y.z") = (.ok n, ⟨some db1, none⟩)
      ∧ 0 < n
      ∧ clearEmails ⟨some db1, none⟩ (some "x@y.z") = (.ok 0, ⟨some db1, none⟩))
    ∧ clearEmails ⟨some ⟨[⟨1, "x@y.z", "s1", some "a", none, none, none, 10,
          none⟩,
        ⟨2, "x@y.z", "s2", some "b", none, none, none, 20, none⟩,
        ⟨3, "other@y.z", "s3", some "c", none, none, none, 30, none⟩], 4,
        true⟩, none⟩ (some "x@y.z") =
      (.ok 2, ⟨some ⟨[⟨3, "other@y.z", "s3", some "c", none, none, none, 30,
        none⟩], 4, true⟩, none⟩) := by
  refine ⟨?_, by rfl⟩
  obtain ⟨n, db1, h1, h2, _, h4⟩ := c6_clear_idempotent
    ⟨some ⟨[⟨1, "x@y.z", "s1", some "a", none, none, none, 10, none⟩,
      ⟨2, "x@y.z", "s2", some "b", none, none, none, 20, none⟩,
      ⟨3, "other@y.z", "s3", some "c", none, none, none, 30, none⟩], 4,
      true⟩, none⟩
    ⟨[⟨1, "x@y.z", "s1", some "a", none, none, none, 10, none⟩,
      ⟨2, "x@y.z", "s2", some "b", none, none, none, 20, none⟩,
      ⟨3, "other@y.z", "s3", some "c", none, none, none, 30, none⟩], 4, true⟩
    (some "x@y.z") rfl rfl (by decide)
  refine ⟨n, db1, h1, ?_, h4⟩
  exact h2.mpr ⟨⟨1, "x@y.z", "s1", some "a", none, none, none, 10, none⟩,
    by simp, by decide⟩

/-- Claim C4: with a reachable store and a non-empty address, list always
succeeds and returns exactly the stored messages whose `email_address`
equals the normalized address — ordered by `received_at` descending,
truncated to at most 100 entries, a permutation of all matching messages
whenever at most 100 match (in particular the empty sequence, not an error,
when none match), and containing only messages at least as recent as every
matching message it leaves out. -/
theorem c4_list_spec (env : Env) (db : D1Database) (addr : String)
    (hdb : env.DB = some db) (hh : db.healthy = true) (ha : addr ≠ "") :
    ∃ l, getEmails env (some addr) = .ok l
      ∧ l.length = min (matchingRows db (normalizeAddr addr)).length 100
      ∧ List.Pairwise (fun a b : EmailOut => b.receivedAt ≤ a.receivedAt) l
      ∧ (∀ m ∈ l, ∃ e ∈ matchingRows db (normalizeAddr addr),
          m = formatEmail (normalizeAddr addr) e)
      ∧ ((matchingRows db (normalizeAddr addr)).length ≤ 100 →
          l.Perm ((matchingRows db (normalizeAddr addr)).map
            (formatEmail (normalizeAddr addr))))
      ∧ (matchingRows db (normalizeAddr addr) = [] → l = [])
      ∧ (∀ e ∈ matchingRows db (normalizeAddr addr),
          formatEmail (normalizeAddr addr) e ∉ l →
          ∀ m ∈ l, e.received_at ≤ m.receivedAt) := by
  refine ⟨(queryEmails db (normalizeAddr addr)).map
      (formatEmail (normalizeAddr addr)), ?_, ?_, ?_, ?_, ?_, ?_, ?_⟩
  · unfold getEmails
    rw [if_neg (by simp [truthy, ha])]
    simp only [jsOr_some_ne _ _ ha, hdb, hh, if_true]
  · rw [List.length_map, queryEmails, List.length_take,
      List.length_insertionSort, Nat.min_comm]
  · have hs : List.Pairwise recvGE
        ((matchingRows db (normalizeAddr addr)).insertionSort recvGE) :=
      List.sorted_insertionSort recvGE _
    have hq : List.Pairwise recvGE (queryEmails db (normalizeAddr addr)) :=
      List.Pairwise.sublist (List.take_sublist _ _) hs
    rw [List.pairwise_map]
    exact hq
  · intro m hm
    obtain ⟨e, he, rfl⟩ := List.mem_map.mp hm
    refine ⟨e, ?_, rfl⟩
    exact (List.mem_insertionSort recvGE).mp (List.mem_of_mem_take he)
  · intro hle
    have htake : ((matchingRows db (normalizeAddr addr)).insertionSort
        recvGE).take 100 =
        (matchingRows db (normalizeAddr addr)).insertionSort recvGE := by
      apply List.take_of_length_le
      rw [List.length_insertionSort]
      exact hle
    rw [queryEmails, htake]
    exact (List.perm_insertionSort recvGE _).map _
  · intro h0
    rw [queryEmails, h0]
    rfl
  · intro e heM hnotin m hm
    obtain ⟨a, haq, rfl⟩ := List.mem_map.mp hm
    have heS : e ∈ (matchingRows db (normalizeAddr addr)).insertionSort
        recvGE := (List.mem_insertionSort recvGE).mpr heM
    have henotq : e ∉ queryEmails db (normalizeAddr addr) := fun hq =>
      hnotin (List.mem_map_of_mem _ hq)
    have heDrop : e ∈ ((matchingRows db (normalizeAddr addr)).insertionSort
        recvGE).drop 100 := by
      rw [← List.take_append_drop 100
        ((matchingRows db (normalizeAddr addr)).insertionSort recvGE)] at heS
      rcases List.mem_append.mp heS with h | h
      · exact absurd h henotq
      · exact h
    have hsorted : List.Pairwise recvGE
        ((matchingRows db (normalizeAddr addr)).insertionSort recvGE) :=
      List.sorted_insertionSort recvGE _
    rw [← List.take_append_drop 100
      ((matchingRows db (normalizeAddr addr)).insertionSort recvGE)]
      at hsorted
    exact (List.pairwise_append.mp hsorted).2.2 a haq e heDrop

/-- Witness for C4 on a concrete two-message mailbox. -/
theorem c4_list_spec_witness :
    ∃ l, getEmails ⟨some ⟨[⟨1, "a@b.c", "s1", some "one", none, some "t1",
          none, 10, none⟩,
        ⟨2, "a@b.c", "s2", some "two", none, some "t2", none, 20, none⟩], 3,
        true⟩, none⟩ (some "a@b.c") = .ok l
      ∧ l.length = min (matchingRows ⟨[⟨1, "a@b.c", "s1", some "one", none,
          some "t1", none, 10, none⟩,
        ⟨2, "a@b.c", "s2", some "two", none, some "t2", none, 20, none⟩], 3,
        true⟩ (normalizeAddr "a@b.c")).length 100
      ∧ List.Pairwise (fun a b : EmailOut => b.receivedAt ≤ a.receivedAt) l
      ∧ (∀ m ∈ l, ∃ e ∈ matchingRows ⟨[⟨1, "a@b.c", "s1", some "one", none,
          some "t1", none, 10, none⟩,
        ⟨2, "a@b.c", "s2", some "two", none, some "t2", none, 20, none⟩], 3,
        true⟩ (normalizeAddr "a@b.c"),
          m = formatEmail (normalizeAddr "a@b.c") e)
      ∧ ((matchingRows ⟨[⟨1, "a@b.c", "s1", some "one", none, some "t1",
          none, 10, none⟩,
        ⟨2, "a@b.c", "s2", some "two", none, some "t2", none, 20, none⟩], 3,
        true⟩ (normalizeAddr "a@b.c")).length ≤ 100 →
          l.Perm ((matchingRows ⟨[⟨1, "a@b.c", "s1", some "one", none,
            some "t1", none, 10, none⟩,
          ⟨2, "a@b.c", "s2", some "two", none, some "t2", none, 20, none⟩],
          3, true⟩ (normalizeAddr "a@b.c")).map
            (formatEmail (normalizeAddr "a@b.c"))))
      ∧ (matchingRows ⟨[⟨1, "a@b.c", "s1", some "one", none, some "t1", none,
          10, none⟩,
        ⟨2, "a@b.c", "s2", some "two", none, some "t2", none, 20, none⟩], 3,
        true⟩ (normalizeAddr "a@b.c") = [] → l = [])
      ∧ (∀ e ∈ matchingRows ⟨[⟨1, "a@b.c", "s1", some "one", none, some "t1",
          none, 10, none⟩,
        ⟨2, "a@b.c", "s2", some "two", none, some "t2", none, 20, none⟩], 3,
        true⟩ (normalizeAddr "a@b.c"),
          formatEmail (normalizeAddr "a@b.c") e ∉ l →
          ∀ m ∈ l, e.received_at ≤ m.receivedAt) :=
  c4_list_spec ⟨some ⟨[⟨1, "a@b.c", "s1", some "one", none, some "t1", none,
      10, none⟩,
    ⟨2, "a@b.c", "s2", some "two", none, some "t2", none, 20, none⟩], 3,
    true⟩, none⟩
    ⟨[⟨1, "a@b.c", "s1", some "one", none, some "t1", none, 10, none⟩,
      ⟨2, "a@b.c", "s2", some "two", none, some "t2", none, 20, none⟩], 3,
      true⟩ "a@b.c" rfl rfl (by decide)

/-- A nullable string is truthy exactly when its `|| ""` defaulting is
non-empty. -/
lemma truthy_iff_jsOr_ne (a : Option String) :
    truthy a = true ↔ jsOr a "" ≠ "" := by
  cases a with
  | none => simp [truthy, jsOr]
  | some s =>
      by_cases hs : s = "" <;> simp [truthy, jsOr, hs]

/-- Claim C9: every message returned by list carries a `preview` equal to
the first 100 characters of its (defaulted) text body when that is
non-empty, else the subject when the subject is present and non-empty, else
the literal placeholder `无内容` ("no content"). -/
theorem c9_preview_spec (env : Env) (address : Option String)
    (l : List EmailOut) (h : getEmails env address = .ok l) :
    ∀ m ∈ l,
      (m.text ≠ "" → m.preview = m.text.take 100)
      ∧ (∀ s, m.text = "" → m.subject = some s → s ≠ "" → m.preview = s)
      ∧ (m.text = "" → (m.subject = none ∨ m.subject = some "") →
          m.preview = "无内容") := by
  unfold getEmails at h
  split at h
  · cases h
  · split at h
    · cases h
    · split at h
      · have hl := (Except.ok.inj h).symm
        subst hl
        intro m hm
        obtain ⟨e, _, rfl⟩ := List.mem_map.mp hm
        by_cases htc : truthy e.text_content = true
        · refine ⟨?_, ?_, ?_⟩
          · intro _
            simp [formatEmail, htc]
          · intro s htext _ _
            exact absurd htext ((truthy_iff_jsOr_ne _).mp htc)
          · intro htext _
            exact absurd htext ((truthy_iff_jsOr_ne _).mp htc)
        · have htc' : truthy e.text_content = false :=
            Bool.eq_false_iff.mpr htc
          refine ⟨?_, ?_, ?_⟩
          · intro hne
            exfalso
            apply hne
            show jsOr e.text_content "" = ""
            by_contra h0
            rw [(truthy_iff_jsOr_ne _).mpr h0] at htc'
            cases htc'
          · intro s _ hsub hsne
            have hsub' : e.subject = some s := hsub
            show (if truthy e.text_content then (jsOr e.text_content "").take
              100 else jsOr e.subject "无内容") = s
            rw [htc', if_neg (by simp), hsub']
            simp [jsOr, hsne]
          · intro _ hcase
            show (if truthy e.text_content then (jsOr e.text_content "").take
              100 else jsOr e.subject "无内容") = "无内容"
            rw [htc', if_neg (by simp)]
            rcases hcase with hc | hc
            · have hc' : e.subject = none := hc
              rw [hc']
              rfl
            · have hc' : e.subject = some "" := hc
              rw [hc']
              simp [jsOr]
      · cases h

set_option maxRecDepth 4096 in
/-- Witness for C9: the single listed message of a concrete mailbox, with
text body `"hello"`, carries `preview = "hello"` (its first 100
characters). -/
theorem c9_preview_spec_witness :
    (formatEmail "a@b.c" ⟨1, "a@b.c", "s1", some "subj", none, some "hello",
        none, 10, none⟩).preview =
      (formatEmail "a@b.c" ⟨1, "a@b.c", "s1", some "subj", none, some "hello",
        none, 10, none⟩).text.take 100 :=
  (c9_preview_spec ⟨some ⟨[⟨1, "a@b.c", "s1", some "subj", none, some "hello",
    none, 10, none⟩], 2, true⟩, none⟩ (some "a@b.c") _ rfl
    (formatEmail "a@b.c" ⟨1, "a@b.c", "s1", some "subj", none, some "hello",
      none, 10, none⟩) (by decide)).1 (by decide)
